import Mathlib

/-!
Verification development for the client-side human-vs-bot detection engine
and its adversarial scenario harness.

The repository contains near-duplicate engine variants:
* `EngineA` embeds the first engine variant found in the repository
  (the variant with 19 static detectors, an activity probe deriving four
  signals including a Shannon-entropy regularity check, and a summarizer
  classifying by the ratio score/max).
* `BotDetector` embeds the `src/app/lib/botDetector.ts` variant
  (12 static detectors, an activity probe deriving two signals with a
  variance-only regularity check, synchronous behavioral detectors, and a
  summarizer classifying by raw score thresholds).
* `Harness` embeds `headlessBot.js`, the scenario harness.

JavaScript numbers are modelled as exact rationals; the one transcendental
operation (Math.log2, used by the probe entropy) is modelled by `Real.logb 2`
over the reals.  JavaScript boolean expressions become `Bool` (or `Prop`
where a real-number comparison is involved).  Fallible sensor reads are
modelled with `Option` / `Except`: a `none` / `.error` input denotes the
read failing (throwing or yielding `undefined`), which the source catches.
Diagnostic detail strings are rebuilt with Lean `toString` rendering, an
idealization of the JavaScript decimal formatting.
-/

/-- Risk level union type `"low" | "medium" | "high"`. -/
inductive RiskLevel where
  | low
  | medium
  | high
deriving DecidableEq, Repr

/-- SignalResult record: one detector verdict. -/
structure SignalResult where
  id : String
  name : String
  suspicious : Bool
  weight : ℚ
  details : Option String
deriving DecidableEq, Repr

/-- Propositional variant of SignalResult, used for the probe signals of the
first engine variant, whose regularity flag compares a real-valued entropy
against a threshold (an undecidable comparison in the exact model). -/
structure SignalResultP where
  id : String
  name : String
  suspicious : Prop
  weight : ℚ
  details : Option String

/-- Summary record `{ score, max, level }`. -/
structure Summary where
  score : ℚ
  max : ℚ
  level : RiskLevel
deriving DecidableEq, Repr

/-- JavaScript `x.toFixed(1)` followed by unary plus: round to the nearest
tenth (modelled with round-half-up on exact rationals). -/
def toFixed1 (q : ℚ) : ℚ := (round (10 * q) : ℚ) / 10

/-- The running score accumulator of `summarize`:
`results.reduce((a,s)=>a+(s.suspicious?s.weight:0),0)`. -/
def scoreSum (results : List SignalResult) : ℚ :=
  results.foldl (fun a s => a + (if s.suspicious then s.weight else 0)) 0

/-- The running max accumulator of `summarize`:
`results.reduce((a,s)=>a+s.weight,0)`. -/
def weightSum (results : List SignalResult) : ℚ :=
  results.foldl (fun a s => a + s.weight) 0

/-- JavaScript `hay.includes(pat)` on exploded character lists. -/
def charsInclude (pat : List Char) : List Char → Bool
  | [] => pat.isEmpty
  | c :: t => pat.isPrefixOf (c :: t) || charsInclude pat t

/-- JavaScript `hay.includes(pat)` for strings. -/
def strIncludes (hay pat : String) : Bool :=
  charsInclude pat.toList hay.toList

/-- JavaScript `s.toLowerCase()` (ASCII, which covers every string the
detectors lower-case). -/
def lowerStr (s : String) : String := String.mk (s.toList.map Char.toLower)

/-- JavaScript `s.trim()` on exploded character lists. -/
def trimChars (l : List Char) : List Char :=
  ((l.dropWhile Char.isWhitespace).reverse.dropWhile Char.isWhitespace).reverse

/-- JavaScript `String(b)` for a boolean. -/
def boolStr (b : Bool) : String := if b then "true" else "false"

/-- JavaScript `String(x ?? "n/a")` for an optional boolean. -/
def optBoolNaStr : Option Bool → String
  | none => "n/a"
  | some b => boolStr b

/-- Record constructor mirroring the `signal(id, name, suspicious, weight,
details)` helper of the engine sources. -/
def signal (id name : String) (suspicious : Bool) (weight : ℚ)
    (details : Option String) : SignalResult :=
  { id := id, name := name, suspicious := suspicious, weight := weight, details := details }

/-- Propositional counterpart of `signal`, for the first-variant probe. -/
def signalP (id name : String) (suspicious : Prop) (weight : ℚ)
    (details : Option String) : SignalResultP :=
  { id := id, name := name, suspicious := suspicious, weight := weight, details := details }

/-!
Statistics computed by the activity probes at window close.  The mean and
Bessel-corrected variance formulas are written identically in both engine
variants; the probability normalization and entropy exist only in the first
variant.
-/

/-- The interval sum `intervals.reduce((a,b)=>a+b,0)`. -/
def sumI (l : List ℚ) : ℚ := l.foldl (fun a b => a + b) 0

/-- The sample mean `intervals.length>0 ? intervals.reduce((a,b)=>a+b,0)/intervals.length : 0`. -/
def meanI (l : List ℚ) : ℚ := if 0 < l.length then sumI l / l.length else 0

/-- The Bessel-corrected variance
`intervals.length>1 ? intervals.reduce((acc,v)=>acc+(v-mean)**2,0)/(intervals.length-1) : 0`. -/
def varI (l : List ℚ) : ℚ :=
  if 1 < l.length then
    l.foldl (fun acc v => acc + (v - meanI l) ^ 2) 0 / ((l.length : ℚ) - 1)
  else 0

/-- The normalized gap distribution `intervals.map(i=>i/(sum||1))`
(JavaScript `sum||1` falls back to 1 when the sum is zero). -/
def probsI (l : List ℚ) : List ℚ :=
  l.map (fun i => i / (if sumI l = 0 then 1 else sumI l))

/-- The probe entropy `-probs.reduce((a,p)=>a+(p*Math.log2(p||1)),0)`;
`Math.log2` is modelled by `Real.logb 2`, and `p||1` again falls back to 1
at a zero probability. -/
noncomputable def entropyI (l : List ℚ) : ℝ :=
  -((probsI l).foldl (fun (a : ℝ) (p : ℚ) =>
    a + ((p : ℝ) * Real.logb 2 (if p = 0 then 1 else (p : ℝ)))) 0)

/-- SensorSnapshot: an explicit immutable capture of every environment value
the static detectors read during one pass.  Fallible reads are `Option` /
`Except` valued: `none` / `.error` marks the read yielding `undefined` or
throwing, which each detector catches by itself. -/
structure SensorSnapshot where
  userAgent : String
  webdriver : Option Bool
  webdriverKeyPresent : Bool
  windowGlobals : List String
  fnTamper : Option (Bool × Bool)
  pluginsLength : Option ℕ
  languages : List String
  webgl : Option (String × String × ℕ)
  maxTouchPoints : ℕ
  timezone : Option String
  screenW : ℤ
  screenH : ℤ
  hardwareConcurrency : Option ℕ
  deviceMemory : Option ℚ
  chromeAppInstalled : Option Bool
  permissionsPresent : Bool
  webRTCPresent : Bool
  mediaDevicesPresent : Bool
  perfDelta : ℚ
  canvas : Except Unit (Option String)
  fontWidth : Option ℕ
  audio : Except Unit (Option Bool)
deriving Repr

namespace EngineA

/-- The `isIOS` helper: `/iP(hone|ad|od)/i.test(UA())` as a case-insensitive
substring disjunction. -/
def isIOS (s : SensorSnapshot) : Bool :=
  let ua := lowerStr s.userAgent
  strIncludes ua "iphone" || strIncludes ua "ipad" || strIncludes ua "ipod"

/-- The `isMobileUA` helper: `/(Android|iPhone|iPad|Mobile)/i.test(UA())`. -/
def isMobileUA (s : SensorSnapshot) : Bool :=
  let ua := lowerStr s.userAgent
  strIncludes ua "android" || strIncludes ua "iphone" ||
    strIncludes ua "ipad" || strIncludes ua "mobile"

/-- `detectWebdriver`: `navigator.webdriver === true` or the key being
present on `navigator`, weight 3. -/
def detectWebdriver (s : SensorSnapshot) : SignalResult :=
  let wd := s.webdriver == some true
  let suspect := wd || s.webdriverKeyPresent
  signal "webdriver" "navigator.webdriver present" suspect 3 (some ("value=" ++ boolStr wd))

/-- The automation token list of the first-variant `detectHeadlessUA`. -/
def uaPatterns : List String :=
  ["headlesschrome", "puppeteer", "playwright", "selenium",
   "phantom", "electron", "bot", "crawler", "spider",
   "slurp", "percy", "headless"]

/-- `detectHeadlessUA`: any automation token occurring in the lower-cased
user agent, weight 2. -/
def detectHeadlessUA (s : SensorSnapshot) : SignalResult :=
  let ua := lowerStr s.userAgent
  let hit := uaPatterns.any (fun p => strIncludes ua p)
  signal "ua-headless" "User-Agent hints at automation" hit 2
    (if hit then some ("UA=" ++ ua) else none)

/-- The global-marker list of `detectAutomationGlobals`. -/
def automationGlobalKeys : List String :=
  ["callPhantom", "__nightmare", "__driver_evaluate",
   "__selenium_unwrapped", "__phantomas", "__PLAYWRIGHT_GLOBAL__",
   "Puppeteer", "__puppeteer_evaluate"]

/-- `detectAutomationGlobals`: filters the known automation globals through
a `k in window` presence test, suspicious when any is found, weight 3. -/
def detectAutomationGlobals (s : SensorSnapshot) : SignalResult :=
  let found := automationGlobalKeys.filter (fun k => s.windowGlobals.contains k)
  signal "automation-globals" "Common automation globals present"
    (decide (0 < found.length)) 3
    (if found.length ≠ 0 then some ("found=" ++ String.intercalate "," found) else none)

/-- `detectFunctionTampering`: the source checks
`typeof navigator.plugins?.item === "function"` (a boolean), likewise for
mimeTypes, and then asks whether the string rendering of that boolean
contains "native code" — it never does, so the third disjunct always
holds; a throwing read is caught as suspicious.  Weight 1.5. -/
def detectFunctionTampering (s : SensorSnapshot) : SignalResult :=
  match s.fnTamper with
  | none => signal "fn-tamper" "Navigator tamper check failed" true (3/2) none
  | some (p, m) =>
    let suspect := !p || !m || !(strIncludes (boolStr p) "native code")
    signal "fn-tamper" "Navigator functions tampered" suspect (3/2)
      (some ("plugins.item=" ++ boolStr p ++ ", mime.item=" ++ boolStr m))

/-- `detectPluginsAnomaly`: zero plugins is suspicious except on iOS;
weight 0.5 on iOS, 1.5 elsewhere. -/
def detectPluginsAnomaly (s : SensorSnapshot) : SignalResult :=
  let len := s.pluginsLength.getD 0
  let suspect := (len == 0) && !(isIOS s)
  let weight : ℚ := if isIOS s then 1/2 else 3/2
  signal "plugins" "No browser plugins detected" suspect weight
    (some ("plugins.length=" ++ toString len))

/-- `detectLanguagesAnomaly` (first variant): empty filtered language list
or any language tag shorter than 2 characters, weight 1.5. -/
def detectLanguagesAnomaly (s : SensorSnapshot) : SignalResult :=
  let langs := s.languages.filter (fun l => !l.isEmpty)
  let suspect := (langs.length == 0) || langs.any (fun l => decide (l.length < 2))
  signal "languages" "Empty or short navigator.languages" suspect (3/2)
    (some ("languages=" ++ String.intercalate "," langs))

/-- The virtualization blacklist shared by both `detectWebGLBlacklist`
variants. -/
def webglBlacklist : List String :=
  ["swiftshader", "llvmpipe", "mesa", "software rasterizer",
   "virtualbox", "vmware", "parallels"]

/-- `detectWebGLBlacklist` (first variant): a failed `getWebGLInfo` read
destructures to empty vendor and renderer and extension count 0; suspicious
on a blacklist hit or fewer than 20 extensions, weight 2.5. -/
def detectWebGLBlacklist (s : SensorSnapshot) : SignalResult :=
  let info := s.webgl.getD ("", "", 0)
  let r := lowerStr (info.1 ++ " " ++ info.2.1)
  let hit := webglBlacklist.any (fun b => strIncludes r b) || decide (info.2.2 < 20)
  signal "webgl" "WebGL vendor/renderer looks virtualized" hit (5/2)
    (some (info.1 ++ " | " ++ info.2.1 ++ ", ext=" ++ toString info.2.2))

/-- `detectTouchMismatch`: asymmetric mobile/desktop policy with a
conditional weight (2 / 1 / 0). -/
def detectTouchMismatch (s : SensorSnapshot) : SignalResult :=
  let mt := s.maxTouchPoints
  let suspect := isMobileUA s && (mt == 0)
  let mild := !(isMobileUA s) && decide (5 ≤ mt)
  let weight : ℚ := if suspect then 2 else if mild then 1 else 0
  signal "touch" "UA vs maxTouchPoints mismatch" (suspect || mild) weight
    (some ("maxTouchPoints=" ++ toString mt))

/-- `detectTimezoneAvailable`: a missing, empty or shorter-than-3 timezone
name, weight 1. -/
def detectTimezoneAvailable (s : SensorSnapshot) : SignalResult :=
  let suspect := match s.timezone with
    | none => true
    | some t => t.isEmpty || decide (t.length < 3)
  let tzs := match s.timezone with
    | none => "n/a"
    | some t => if t.isEmpty then "n/a" else t
  signal "timezone" "Timezone unavailable" suspect 1 (some ("timeZone=" ++ tzs))

/-- `detectScreenResolution`: screen size outside the plausible envelope
(width below 300 or above 7680, height below 200 or above 4320), weight 1. -/
def detectScreenResolution (s : SensorSnapshot) : SignalResult :=
  let suspect := decide (s.screenW < 300) || decide (s.screenH < 200) ||
    decide (7680 < s.screenW) || decide (4320 < s.screenH)
  signal "screen" "Unlikely screen resolution" suspect 1
    (some ("width=" ++ toString s.screenW ++ ", height=" ++ toString s.screenH))

/-- `detectDeviceSpecs`: at most one core or at most 1GB device memory
(defaulting each missing read to 1), weight 1. -/
def detectDeviceSpecs (s : SensorSnapshot) : SignalResult :=
  let cores := s.hardwareConcurrency.getD 1
  let memory := s.deviceMemory.getD 1
  let suspect := decide (cores ≤ 1) || decide (memory ≤ 1)
  signal "device-specs" "Low device cores/memory" suspect 1
    (some ("cores=" ++ toString cores ++ ", memory=" ++ toString memory ++ "GB"))

/-- `detectChromeApp` (first variant): suspicious only when the optional
chain yields literal `false`, weight 1. -/
def detectChromeApp (s : SensorSnapshot) : SignalResult :=
  signal "chrome-app" "Chrome app detection" (s.chromeAppInstalled == some false) 1
    (some ("isInstalled=" ++ optBoolNaStr s.chromeAppInstalled))

/-- `detectPermissionsAPI`: missing `navigator.permissions`, weight 1. -/
def detectPermissionsAPI (s : SensorSnapshot) : SignalResult :=
  signal "permissions-api" "navigator.permissions missing" (!s.permissionsPresent) 1 none

/-- `detectWebRTC`: missing `RTCPeerConnection`, weight 1. -/
def detectWebRTC (s : SensorSnapshot) : SignalResult :=
  signal "webrtc" "WebRTC not available" (!s.webRTCPresent) 1 none

/-- `detectMediaDevices`: missing `mediaDevices.enumerateDevices`, weight 1. -/
def detectMediaDevices (s : SensorSnapshot) : SignalResult :=
  signal "media-devices" "Media devices available" (!s.mediaDevicesPresent) 1 none

/-- `detectPerformanceNowDrift`: the measured `performance.now` delta over a
50ms busy wait deviating from 50 by more than 5, weight 2 (the decimal
rendering of the delta is idealized). -/
def detectPerformanceNowDrift (s : SensorSnapshot) : SignalResult :=
  signal "perf-drift" "Performance.now drift anomaly" (decide (5 < |s.perfDelta - 50|)) 2
    (some ("delta=" ++ toString s.perfDelta ++ "ms"))

/-- The canvas data hash
`Array.from(data).reduce((a,c)=> (a + c.charCodeAt(0)) % 9973, 0)`. -/
def canvasHash (data : String) : ℕ :=
  data.toList.foldl (fun a c => (a + c.toNat) % 9973) 0

/-- `detectCanvasFingerprint` (first variant): a throwing canvas read gives
the suspicious "canvas-fp" signal of weight 2; a missing 2d context gives
the suspicious "canvas" signal of weight 2; otherwise the data hash must
avoid the bands below 1000 and above 9000, weight 1.5. -/
def detectCanvasFingerprint (s : SensorSnapshot) : SignalResult :=
  match s.canvas with
  | Except.error _ => signal "canvas-fp" "Canvas failed" true 2 none
  | Except.ok none => signal "canvas" "Canvas unavailable" true 2 none
  | Except.ok (some data) =>
    let hash := canvasHash data
    signal "canvas-fp" "Canvas fingerprint entropy"
      (decide (hash < 1000) || decide (9000 < hash)) (3/2)
      (some ("hash=" ++ toString hash))

/-- `detectFontEnumeration`: a throwing DOM probe is suspicious; otherwise a
zero or below-10 measured width is, weight 0.5. -/
def detectFontEnumeration (s : SensorSnapshot) : SignalResult :=
  match s.fontWidth with
  | none => signal "font-probe" "Font probe failed" true (1/2) none
  | some w =>
    signal "font-probe" "Font metric anomaly" ((w == 0) || decide (w < 10)) (1/2)
      (some ("width=" ++ toString w))

/-- `detectAudioContext`: a missing constructor or a throwing construction
is suspicious; otherwise `createAnalyser` must be a function, weight 0.5. -/
def detectAudioContext (s : SensorSnapshot) : SignalResult :=
  match s.audio with
  | Except.error _ => signal "audio" "AudioContext error" true (1/2) none
  | Except.ok none => signal "audio" "AudioContext missing" true (1/2) none
  | Except.ok (some allowed) => signal "audio" "AudioContext feature check" (!allowed) (1/2) none

/-- `runStaticDetections` (first variant): the fixed 19-detector pass. -/
def runStaticDetections (s : SensorSnapshot) : List SignalResult :=
  [detectWebdriver s, detectHeadlessUA s, detectAutomationGlobals s, detectFunctionTampering s,
   detectPluginsAnomaly s, detectLanguagesAnomaly s, detectWebGLBlacklist s, detectTouchMismatch s,
   detectTimezoneAvailable s, detectScreenResolution s, detectDeviceSpecs s, detectChromeApp s,
   detectPermissionsAPI s, detectWebRTC s, detectMediaDevices s, detectPerformanceNowDrift s,
   detectCanvasFingerprint s, detectFontEnumeration s, detectAudioContext s]

/-- The `noInput` flag: `moves+clicks+keys+scrolls === 0`. -/
def noInput (moves clicks keys scrolls : ℕ) : Bool :=
  moves + clicks + keys + scrolls == 0

/-- The `tooRegular` flag: `variance<5 && entropy<2` (a real-number
comparison, hence a proposition in the exact model). -/
def tooRegular (intervals : List ℚ) : Prop :=
  varI intervals < 5 ∧ entropyI intervals < 2

/-- The `impossibleSpeed` flag: `intervals.some(i=>i<8)`. -/
def impossibleSpeed (intervals : List ℚ) : Bool :=
  intervals.any (fun i => decide (i < 8))

/-- The `excessiveTinyMoves` flag:
`tinyMoves>Math.max(10,Math.floor(moves*0.5))`. -/
def excessiveTinyMoves (tinyMoves moves : ℕ) : Bool :=
  decide (max 10 (moves / 2) < tinyMoves)

/-- JavaScript `Math.round(ms/1000)` on a natural millisecond count. -/
def roundSecs (ms : ℕ) : ℕ := (ms + 500) / 1000

/-- The minInterval detail of the impossible-speed signal:
`Math.min(...(intervals.length?intervals:[Infinity]))`. -/
def minIntervalStr (intervals : List ℚ) : String :=
  match intervals with
  | [] => "Infinity"
  | h :: t => toString (t.foldl min h)

/-- The four probe signals built by the first-variant `startActivityProbe`
at window close, as a function of the event counters, the tiny-move count
and the recorded interval sequence (the real-valued entropy rendering in
the regularity detail string is elided). -/
def probeSignals (ms moves clicks keys scrolls tinyMoves : ℕ)
    (intervals : List ℚ) : List SignalResultP :=
  [signalP "probe-no-input" ("No input during " ++ toString (roundSecs ms) ++ "s")
     (noInput moves clicks keys scrolls = true) 3
     (some ("moves=" ++ toString moves ++ ", clicks=" ++ toString clicks ++
       ", keys=" ++ toString keys ++ ", scrolls=" ++ toString scrolls)),
   signalP "probe-regularity" "Low entropy in input timing"
     (tooRegular intervals) (3/2)
     (some ("n=" ++ toString intervals.length ++ ", var=" ++ toString (varI intervals))),
   signalP "probe-impossible-speed" "Impossible input speed detected"
     (impossibleSpeed intervals = true) 2
     (some ("minInterval=" ++ minIntervalStr intervals)),
   signalP "probe-jitter" "Too many tiny pointer movements"
     (excessiveTinyMoves tinyMoves moves = true) (3/2)
     (some ("tinyMoves=" ++ toString tinyMoves ++ ", moves=" ++ toString moves))]

/-- The ratio-policy `summarize` of the first engine variant:
score and max are the weight sums, the level is classified by the ratio
`score/max` (`max>0 ? score/max : 0`) against `>=0.7` high / `>=0.4` medium,
and the returned score and max are rounded via `toFixed(1)`. -/
def summarize (results : List SignalResult) : Summary :=
  let score := scoreSum results
  let mx := weightSum results
  let r := if 0 < mx then score / mx else 0
  let level := if 7/10 ≤ r then RiskLevel.high
    else if 4/10 ≤ r then RiskLevel.medium else RiskLevel.low
  { score := toFixed1 score, max := toFixed1 mx, level := level }

end EngineA

/-- One listener-table operation, for modelling which listeners a detector
registers and removes. -/
inductive ListenerOp where
  | add (event : String)
  | remove (event : String)
deriving DecidableEq, Repr

namespace BotDetector

/-- `detectWebGLBlacklist` of `botDetector.ts`: `getWebGLInfo` catches any
failure and returns an empty record, which destructures to empty vendor and
renderer strings; the verdict is a blacklist substring hit only (there is
no extension-count disjunct in this variant). -/
def detectWebGLBlacklist (webgl : Option (String × String)) : SignalResult :=
  let info := webgl.getD ("", "")
  let r := lowerStr (info.1 ++ " " ++ info.2)
  let hit := EngineA.webglBlacklist.any (fun b => strIncludes r b)
  signal "webgl" "WebGL vendor/renderer looks virtualized" hit (5/2)
    (some (if (trimChars r.toList).isEmpty then "n/a" else info.1 ++ " | " ++ info.2))

/-- `detectChromeApp` of `botDetector.ts`: suspicious only when the
optional chain yields literal `false`; a missing `chrome.app` chain gives
`undefined`, which is not suspicious. -/
def detectChromeApp (installed : Option Bool) : SignalResult :=
  signal "chrome-app" "Chrome app detection" (installed == some false) 1
    (some ("isInstalled=" ++ optBoolNaStr installed))

/-- The `noInteraction` flag of the `botDetector.ts` probe:
`moves + clicks + keys + scrolls === 0`. -/
def noInteraction (moves clicks keys scrolls : ℕ) : Bool :=
  moves + clicks + keys + scrolls == 0

/-- The `veryRegular` flag of the `botDetector.ts` probe:
`intervals.length >= 5 && varianceAccumulator < 5` — variance only, no
entropy condition. -/
def veryRegular (intervals : List ℚ) : Bool :=
  decide (5 ≤ intervals.length) && decide (varI intervals < 5)

/-- The two probe signals built by the `botDetector.ts`
`startActivityProbe` at window close; `secs` models the measured
`Math.round((performance.now() - start) / 1000)`. -/
def probeSignals (secs moves clicks keys scrolls : ℕ)
    (intervals : List ℚ) : List SignalResult :=
  [signal "probe-no-input" ("No input during " ++ toString secs ++ "s")
     (noInteraction moves clicks keys scrolls) 3
     (some ("moves=" ++ toString moves ++ ", clicks=" ++ toString clicks ++
       ", keys=" ++ toString keys ++ ", scrolls=" ++ toString scrolls)),
   signal "probe-regularity" "Highly regular input timing"
     (veryRegular intervals) (3/2)
     (some (if intervals.length ≠ 0 then
       "n=" ++ toString intervals.length ++ ", variance=" ++ toString (varI intervals)
      else "n=0"))]

/-- `detectFocusBlurPatterns` (synchronous variant): registers a blur
listener and returns within the same synchronous call.  `fired` is the
list of events dispatched to the registered listener between registration
and the return; the run-to-completion event loop guarantees it is empty
for a synchronous body.  The returned operation list records that exactly
one listener is added and none is ever removed. -/
def detectFocusBlurPatterns (fired : List String) : SignalResult × List ListenerOp :=
  (signal "focus-blur" "Did the user lose focus?" (fired.contains "blur") (1/2) none,
   [ListenerOp.add "blur"])

/-- `detectResizeEvents` (synchronous variant), same shape for resize. -/
def detectResizeEvents (fired : List String) : SignalResult × List ListenerOp :=
  (signal "resize" "User resized window?" (fired.contains "resize") (1/2) none,
   [ListenerOp.add "resize"])

/-- `detectTouchGestures` (synchronous variant), same shape for
gesturestart, weight 1. -/
def detectTouchGestures (fired : List String) : SignalResult × List ListenerOp :=
  (signal "touch-gestures" "User performed touch gestures?" (fired.contains "gesturestart") 1 none,
   [ListenerOp.add "gesturestart"])

/-- The raw-score `summarize` of `botDetector.ts`: identical score and max
accumulators, but the level is classified by the raw score against
`score >= 8` high / `score >= 4` medium. -/
def summarize (results : List SignalResult) : Summary :=
  let score := scoreSum results
  let mx := weightSum results
  let level := if 8 ≤ score then RiskLevel.high
    else if 4 ≤ score then RiskLevel.medium else RiskLevel.low
  { score := toFixed1 score, max := toFixed1 mx, level := level }

end BotDetector

/-!
The scenario harness of `headlessBot.js`.  The browser-automation control
channel is an external collaborator: each scenario value carries the
outcome its controlled page produces (whether the optional action script
throws, and what the diagnostics evaluation yields).  Launch, navigation
and close are assumed to succeed, as the claims under study concern
action-step errors only.
-/

namespace Harness

/-- The harness target constant. -/
def TARGET : String := "https://cside-assesment.vercel.app"

/-- The harness output file constant. -/
def OUTFILE : String := "bot-test-results.json"

/-- What the in-page diagnostics evaluation of `grabDiagnostics` can see. -/
structure PageDiag where
  evalFailure : Option String
  globalOut : Option String
  preText : Option String
  preParsed : Option String
deriving DecidableEq, Repr

/-- The result shape `grabDiagnostics` returns: the published global slot,
a parsed or raw pre-element fallback, the empty default, or a structured
error object. -/
inductive DiagResult where
  | fromGlobal (payload : String)
  | parsedPre (payload : String)
  | rawPre (payload : String)
  | emptyDefault
  | errored (msg : String)
deriving DecidableEq, Repr

/-- `grabDiagnostics`: a throwing evaluation is caught into a structured
error; otherwise the global diagnostic slot is preferred, then the parsed
pre text, then the raw pre text, then the empty default. -/
def grabDiagnostics (p : PageDiag) : DiagResult :=
  match p.evalFailure with
  | some e => DiagResult.errored e
  | none =>
    match p.globalOut with
    | some g => DiagResult.fromGlobal g
    | none =>
      match p.preText with
      | some t =>
        match p.preParsed with
        | some j => DiagResult.parsedPre j
        | none => DiagResult.rawPre t
      | none => DiagResult.emptyDefault

/-- One configured scenario: its name, the timestamp taken when its report
is built, the outcome of its optional action script (`none` = no action
configured, `some (.error e)` = the action threw `e`), and what its page
offers to the diagnostics extraction. -/
structure Scenario where
  name : String
  timestamp : String
  actionRun : Option (Except String Unit)
  page : PageDiag
deriving Repr

/-- One ScenarioReport, as built by `reportScenario`. -/
structure Report where
  scenario : String
  timestamp : String
  result : DiagResult
deriving DecidableEq, Repr

/-- `runScenario`: a throwing action is caught and logged
(`console.error`), and the scenario proceeds to diagnostics extraction; a
report is returned unconditionally.  The second component is the console
log the call emits. -/
def runScenario (sc : Scenario) : Report × List String :=
  let logs := match sc.actionRun with
    | some (Except.error e) => ["[" ++ sc.name ++ "] action error " ++ e]
    | _ => []
  ({ scenario := sc.name, timestamp := sc.timestamp, result := grabDiagnostics sc.page }, logs)

/-- The report accumulation of the main IIFE:
`results.push(await runScenario({...}))` performed scenario by scenario. -/
def harnessResults (scs : List Scenario) : List Report :=
  scs.foldl (fun acc sc => acc ++ [(runScenario sc).1]) []

/-- The one output document `{ target, results }`. -/
structure HarnessDoc where
  target : String
  results : List Report
deriving DecidableEq, Repr

/-- The file writes the main IIFE performs: a single `writeFileSync` of the
full document after the last scenario completes. -/
def harnessWrites (scs : List Scenario) : List (String × HarnessDoc) :=
  [(OUTFILE, { target := TARGET, results := harnessResults scs })]

end Harness

/-!
Definitions modelled from the specification wording, for refinement
comparison against the code-derived probe statistics.
-/

/-- Modelled from the spec: the sample mean of the interval sequence. -/
def specSampleMean (l : List ℚ) : ℚ := l.sum / l.length

/-- Modelled from the spec: the Bessel-corrected variance, dividing the sum
of squared deviations from the sample mean by n-1. -/
def specBesselVariance (l : List ℚ) : ℚ :=
  (l.map (fun v => (v - specSampleMean l) ^ 2)).sum / ((l.length : ℚ) - 1)

/-- Modelled from the spec: the Shannon entropy over the gaps normalized to
a probability distribution, a zero probability contributing zero. -/
noncomputable def specShannonEntropy (l : List ℚ) : ℝ :=
  -((l.map (fun g =>
    if (g / l.sum : ℚ) = 0 then (0:ℝ)
    else ((g / l.sum : ℚ) : ℝ) * Real.logb 2 ((g / l.sum : ℚ) : ℝ))).sum)

/-- The id the canvas detector reports: "canvas" exactly when a 2d context
is unavailable, "canvas-fp" otherwise. -/
def canvasIdOf (s : SensorSnapshot) : String :=
  match s.canvas with
  | Except.ok none => "canvas"
  | _ => "canvas-fp"

/-- The fixed id sequence of the 19-detector static pass; only the canvas
detector id depends on the snapshot (and on nothing but the context
availability). -/
def staticIdList (s : SensorSnapshot) : List String :=
  ["webdriver", "ua-headless", "automation-globals", "fn-tamper", "plugins", "languages",
   "webgl", "touch", "timezone", "screen", "device-specs", "chrome-app", "permissions-api",
   "webrtc", "media-devices", "perf-drift", canvasIdOf s, "font-probe", "audio"]

/-- A concrete snapshot for witness instantiation. -/
def sampleSnapshot : SensorSnapshot :=
  { userAgent := "Mozilla/5.0 TestBrowser"
    webdriver := none
    webdriverKeyPresent := false
    windowGlobals := ["document", "location"]
    fnTamper := some (true, true)
    pluginsLength := some 3
    languages := ["en-US", "en"]
    webgl := some ("TestVendor", "TestRenderer", 30)
    maxTouchPoints := 0
    timezone := some "Europe/Berlin"
    screenW := 1920
    screenH := 1080
    hardwareConcurrency := some 8
    deviceMemory := some 8
    chromeAppInstalled := some true
    permissionsPresent := true
    webRTCPresent := true
    mediaDevicesPresent := true
    perfDelta := 50
    canvas := Except.ok (some "data-url-payload")
    fontWidth := some 42
    audio := Except.ok (some true) }

/-- A single triggered signal of weight 1 (ratio 1, raw score 1). -/
def oneSuspSignal : SignalResult :=
  signal "webdriver" "navigator.webdriver present" true 1 none

/-- A single untriggered signal whose weight 0.05 is not a multiple of one
tenth. -/
def tinyWeightSignal : SignalResult :=
  signal "font-probe" "Font metric anomaly" false (1/20) none

/-- A triggered signal of weight 7. -/
def sevenSignal : SignalResult :=
  signal "webdriver" "navigator.webdriver present" true 7 none

/-- An untriggered signal of weight 3. -/
def threeSignal : SignalResult :=
  signal "webrtc" "WebRTC not available" false 3 none

/-- A collection whose score/max ratio is exactly 0.70 (score 7, max 10). -/
def ratioBoundaryList : List SignalResult := [sevenSignal, threeSignal]

/-- A scenario whose action succeeds and whose page publishes the global
diagnostic slot. -/
def wScenarioOkGlobal : Harness.Scenario :=
  { name := "human-headful-baseline"
    timestamp := "2025-01-01T00:00:00.000Z"
    actionRun := some (Except.ok ())
    page := { evalFailure := none, globalOut := some "summary-one", preText := none, preParsed := none } }

/-- A scenario whose action step throws; its page still offers pre text. -/
def wScenarioThrow : Harness.Scenario :=
  { name := "headless-perfect-regular-motion"
    timestamp := "2025-01-01T00:01:00.000Z"
    actionRun := some (Except.error "boom")
    page := { evalFailure := none, globalOut := none, preText := some "pre-payload", preParsed := none } }

/-- A scenario without an action whose diagnostics evaluation throws. -/
def wScenarioEvalFail : Harness.Scenario :=
  { name := "headless-default-noinput"
    timestamp := "2025-01-01T00:02:00.000Z"
    actionRun := none
    page := { evalFailure := some "eval timeout", globalOut := none, preText := none, preParsed := none } }

/-- Three configured scenarios, the middle one with a throwing action. -/
def wScenarios : List Harness.Scenario :=
  [wScenarioOkGlobal, wScenarioThrow, wScenarioEvalFail]

-- Helper lemmas on the fold accumulators.

theorem foldl_add_map {α β : Type*} [AddCommMonoid β] (f : α → β) (l : List α) (a : β) :
    l.foldl (fun acc x => acc + f x) a = a + (l.map f).sum := by
  induction l generalizing a with
  | nil => simp
  | cons h t ih => simp [ih, add_assoc]

theorem scoreSum_eq_sum (l : List SignalResult) :
    scoreSum l = (l.map (fun s => if s.suspicious then s.weight else 0)).sum := by
  simpa [scoreSum] using foldl_add_map (fun s : SignalResult => if s.suspicious then s.weight else 0) l 0

theorem weightSum_eq_sum (l : List SignalResult) :
    weightSum l = (l.map (fun s => s.weight)).sum := by
  simpa [weightSum] using foldl_add_map (fun s : SignalResult => s.weight) l 0

theorem sumI_eq_sum (l : List ℚ) : sumI l = l.sum := by
  simpa using foldl_add_map (fun x : ℚ => x) l 0

theorem scoreSum_nonneg (l : List SignalResult) (h : ∀ s ∈ l, 0 ≤ s.weight) :
    0 ≤ scoreSum l := by
  rw [scoreSum_eq_sum]
  apply List.sum_nonneg
  intro q hq
  obtain ⟨s, hs, rfl⟩ := List.mem_map.mp hq
  by_cases hb : s.suspicious <;> simp [hb, h s hs]

theorem scoreSum_le_weightSum (l : List SignalResult) (h : ∀ s ∈ l, 0 ≤ s.weight) :
    scoreSum l ≤ weightSum l := by
  rw [scoreSum_eq_sum, weightSum_eq_sum]
  apply List.sum_le_sum
  intro s hs
  by_cases hb : s.suspicious <;> simp [hb, h s hs]

theorem round_monotone {x y : ℚ} (h : x ≤ y) : round x ≤ round y := by
  rw [round_eq, round_eq]
  exact Int.floor_le_floor (by linarith)

theorem toFixed1_monotone {x y : ℚ} (h : x ≤ y) : toFixed1 x ≤ toFixed1 y := by
  unfold toFixed1
  have := round_monotone (show 10 * x ≤ 10 * y by linarith)
  have hc : ((round (10 * x) : ℤ) : ℚ) ≤ ((round (10 * y) : ℤ) : ℚ) := by exact_mod_cast this
  linarith

theorem toFixed1_zero : toFixed1 0 = 0 := by
  simp [toFixed1]

theorem toFixed1_tenth (k : ℤ) : toFixed1 ((k : ℚ) / 10) = (k : ℚ) / 10 := by
  unfold toFixed1
  rw [show (10 : ℚ) * ((k : ℚ) / 10) = (k : ℚ) by ring, round_intCast]

theorem meanI_spec (l : List ℚ) (h : 0 < l.length) : meanI l = specSampleMean l := by
  simp [meanI, h, sumI_eq_sum, specSampleMean]

theorem varI_spec (l : List ℚ) (h : 1 < l.length) : varI l = specBesselVariance l := by
  have h0 : 0 < l.length := Nat.lt_of_lt_of_le Nat.one_pos (Nat.le_of_lt h)
  simp only [varI, if_pos h, specBesselVariance, ← meanI_spec l h0]
  rw [foldl_add_map (fun v => (v - meanI l) ^ 2) l 0, zero_add]

theorem entropyI_spec (l : List ℚ) (h : sumI l ≠ 0) : entropyI l = specShannonEntropy l := by
  have hs : l.sum ≠ 0 := by rwa [sumI_eq_sum] at h
  rw [entropyI,
    foldl_add_map (fun p : ℚ => ((p : ℝ) * Real.logb 2 (if p = 0 then 1 else (p : ℝ)))) (probsI l) 0,
    zero_add, probsI, if_neg h, List.map_map, specShannonEntropy]
  congr 1
  congr 1
  apply List.map_congr_left
  intro g hg
  simp only [Function.comp_apply, sumI_eq_sum]
  by_cases hp : (g / l.sum : ℚ) = 0
  · simp [hp]
  · rw [if_neg hp, if_neg hp]

-- Exact base-two logarithms, for evaluating the probe entropy on dyadic
-- gap distributions.

theorem logbTwoZpow (k : ℤ) : Real.logb 2 ((2:ℝ) ^ k) = k := by
  rw [Real.logb, Real.log_zpow]
  have h2 : Real.log 2 ≠ 0 := ne_of_gt (Real.log_pos (by norm_num))
  field_simp

theorem logbTwoHalf : Real.logb 2 ((1:ℝ)/2) = -1 := by
  have h : ((1:ℝ)/2) = (2:ℝ) ^ (-1 : ℤ) := by norm_num
  rw [h, logbTwoZpow]
  norm_num

theorem logbTwoQuarter : Real.logb 2 ((1:ℝ)/4) = -2 := by
  have h : ((1:ℝ)/4) = (2:ℝ) ^ (-2 : ℤ) := by norm_num
  rw [h, logbTwoZpow]
  norm_num

theorem logbTwoEighth : Real.logb 2 ((1:ℝ)/8) = -3 := by
  have h : ((1:ℝ)/8) = (2:ℝ) ^ (-3 : ℤ) := by norm_num
  rw [h, logbTwoZpow]
  norm_num

theorem entropyI_nil : entropyI [] = 0 := by
  simp [entropyI, probsI]

theorem entropyI_eight : entropyI [10,10,10,10,10,10,10,10] = 3 := by
  have hs : sumI [10,10,10,10,10,10,10,10] = 80 := by norm_num [sumI]
  have hp : ((10:ℚ)/80) = 1/8 := by norm_num
  have hne : ¬ ((1:ℚ)/8 = 0) := by norm_num
  have hcast : (((1:ℚ)/8 : ℚ) : ℝ) = (1:ℝ)/8 := by push_cast; ring
  simp only [entropyI, probsI, hs]
  norm_num [hp, hne, hcast, logbTwoEighth]

theorem entropyI_mix : entropyI [32,16,8,8] = 7/4 := by
  have hs : sumI [32,16,8,8] = 64 := by norm_num [sumI]
  simp only [entropyI, probsI, hs]
  norm_num [logbTwoEighth, logbTwoQuarter, logbTwoHalf,
    show (((1:ℚ)/2 : ℚ) : ℝ) = (1:ℝ)/2 by push_cast; ring,
    show (((1:ℚ)/4 : ℚ) : ℝ) = (1:ℝ)/4 by push_cast; ring,
    show (((1:ℚ)/8 : ℚ) : ℝ) = (1:ℝ)/8 by push_cast; ring]

-- Identity of the Signal id field for the detectors whose source branches
-- on a sensor read, and the id sequence of the full static pass.

theorem detectFunctionTampering_id (s : SensorSnapshot) :
    (EngineA.detectFunctionTampering s).id = "fn-tamper" := by
  unfold EngineA.detectFunctionTampering
  rcases s.fnTamper with _ | ⟨p, m⟩ <;> rfl

theorem detectCanvasFingerprint_id (s : SensorSnapshot) :
    (EngineA.detectCanvasFingerprint s).id = canvasIdOf s := by
  unfold EngineA.detectCanvasFingerprint canvasIdOf
  rcases s.canvas with e | v
  · rfl
  · rcases v with _ | d <;> rfl

theorem detectFontEnumeration_id (s : SensorSnapshot) :
    (EngineA.detectFontEnumeration s).id = "font-probe" := by
  unfold EngineA.detectFontEnumeration
  rcases s.fontWidth with _ | w <;> rfl

theorem detectAudioContext_id (s : SensorSnapshot) :
    (EngineA.detectAudioContext s).id = "audio" := by
  unfold EngineA.detectAudioContext
  rcases s.audio with e | v
  · rfl
  · rcases v with _ | b <;> rfl

theorem runStatic_map_id (s : SensorSnapshot) :
    (EngineA.runStaticDetections s).map (fun r => r.id) = staticIdList s := by
  simp [EngineA.runStaticDetections, staticIdList,
    detectFunctionTampering_id, detectCanvasFingerprint_id,
    detectFontEnumeration_id, detectAudioContext_id,
    EngineA.detectWebdriver, EngineA.detectHeadlessUA, EngineA.detectAutomationGlobals,
    EngineA.detectPluginsAnomaly, EngineA.detectLanguagesAnomaly, EngineA.detectWebGLBlacklist,
    EngineA.detectTouchMismatch, EngineA.detectTimezoneAvailable, EngineA.detectScreenResolution,
    EngineA.detectDeviceSpecs, EngineA.detectChromeApp, EngineA.detectPermissionsAPI,
    EngineA.detectWebRTC, EngineA.detectMediaDevices, EngineA.detectPerformanceNowDrift, signal]

theorem canvasIdOf_cases (s : SensorSnapshot) :
    canvasIdOf s = "canvas" ∨ canvasIdOf s = "canvas-fp" := by
  unfold canvasIdOf
  rcases s.canvas with e | v
  · right; rfl
  · rcases v with _ | d
    · left; rfl
    · right; rfl

theorem staticIdList_nodup (s : SensorSnapshot) : (staticIdList s).Nodup := by
  unfold staticIdList
  rcases canvasIdOf_cases s with h | h <;> rw [h] <;> decide


theorem foldl_append_map {α β : Type*} (f : α → β) (l : List α) (acc : List β) :
    l.foldl (fun a x => a ++ [f x]) acc = acc ++ l.map f := by
  induction l generalizing acc with
  | nil => simp
  | cons h t ih => simp [ih]

/-!
The claims.
-/

/-- C1 counterexample: on the collection holding the single triggered
weight-1 signal, the ratio score/max is 1 (at least 0.7), so the claim as
stated requires level "high"; the `botDetector.ts` `summarize` classifies
the same collection "low" (raw score 1 is below 4). -/
theorem c1_counterexample :
    (7:ℚ)/10 ≤ scoreSum [oneSuspSignal] / weightSum [oneSuspSignal] ∧
    (BotDetector.summarize [oneSuspSignal]).level = RiskLevel.low := by
  constructor
  · norm_num [scoreSum, weightSum, oneSuspSignal, signal]
  · simp only [BotDetector.summarize]
    have hs : scoreSum [oneSuspSignal] = 1 := by norm_num [scoreSum, oneSuspSignal, signal]
    rw [hs]
    norm_num

/-- C1 (amended): the ratio-policy summarize of the first engine variant
classifies by score/max against the 0.7 and 0.4 thresholds exactly as the
claim states (for collections with positive max); the `botDetector.ts`
summarize instead classifies by the raw score against the 8 and 4
thresholds. -/
theorem c1_level_policy (results : List SignalResult) :
    (0 < weightSum results →
      (((EngineA.summarize results).level = RiskLevel.high ↔
        7/10 ≤ scoreSum results / weightSum results) ∧
       ((EngineA.summarize results).level = RiskLevel.medium ↔
        4/10 ≤ scoreSum results / weightSum results ∧
          scoreSum results / weightSum results < 7/10) ∧
       ((EngineA.summarize results).level = RiskLevel.low ↔
        scoreSum results / weightSum results < 4/10))) ∧
    (((BotDetector.summarize results).level = RiskLevel.high ↔ 8 ≤ scoreSum results) ∧
     ((BotDetector.summarize results).level = RiskLevel.medium ↔
       4 ≤ scoreSum results ∧ scoreSum results < 8) ∧
     ((BotDetector.summarize results).level = RiskLevel.low ↔ scoreSum results < 4)) := by
  constructor
  · intro h
    simp only [EngineA.summarize, if_pos h]
    split_ifs with h1 h2 <;> refine ⟨?_, ?_, ?_⟩ <;> simp_all <;> linarith
  · simp only [BotDetector.summarize]
    split_ifs with h1 h2 <;> refine ⟨?_, ?_, ?_⟩ <;> simp_all <;> linarith

/-- C1 witness: the collection of weights 7 (triggered) and 3 (untriggered)
has max 10 and ratio exactly 0.70, so the ratio policy yields "high" while
the raw-score policy yields "medium". -/
theorem c1_level_policy_witness :
    0 < weightSum ratioBoundaryList ∧
    (EngineA.summarize ratioBoundaryList).level = RiskLevel.high ∧
    (BotDetector.summarize ratioBoundaryList).level = RiskLevel.medium := by
  have h := c1_level_policy ratioBoundaryList
  have hw : weightSum ratioBoundaryList = 10 := by
    norm_num [weightSum, ratioBoundaryList, sevenSignal, threeSignal, signal]
  have hs : scoreSum ratioBoundaryList = 7 := by
    norm_num [scoreSum, ratioBoundaryList, sevenSignal, threeSignal, signal]
  refine ⟨by rw [hw]; norm_num, ?_, ?_⟩
  · exact ((h.1 (by rw [hw]; norm_num)).1).mpr (by rw [hw, hs])
  · exact (h.2.2.1).mpr (by rw [hs]; norm_num)

/-- C2 counterexample: in the first engine variant, a zero-event run leaves
no intervals, so variance and entropy are both 0, below the thresholds 5
and 2 — the "too regular" flag that the claim requires to be false is
true (together with the "no input" flag). -/
theorem c2_counterexample :
    EngineA.noInput 0 0 0 0 = true ∧ EngineA.tooRegular [] := by
  refine ⟨rfl, ?_, ?_⟩
  · norm_num [varI]
  · rw [entropyI_nil]; norm_num

/-- C2 (amended): on a zero-event run (all four counters zero, empty
interval sequence) both probes return "no input" suspicious; the
`botDetector.ts` probe returns "too regular" not suspicious (its interval
count guard fails), but the first-variant probe returns "too regular"
suspicious, since the empty sequence has variance 0 and entropy 0. -/
theorem c2_zero_event_probe (ms secs : ℕ) :
    ((EngineA.probeSignals ms 0 0 0 0 0 []).get
      ⟨0, by norm_num [EngineA.probeSignals]⟩).suspicious ∧
    ((EngineA.probeSignals ms 0 0 0 0 0 []).get
      ⟨1, by norm_num [EngineA.probeSignals]⟩).suspicious ∧
    ((BotDetector.probeSignals secs 0 0 0 0 []).get
      ⟨0, by norm_num [BotDetector.probeSignals]⟩).suspicious = true ∧
    ((BotDetector.probeSignals secs 0 0 0 0 []).get
      ⟨1, by norm_num [BotDetector.probeSignals]⟩).suspicious = false := by
  refine ⟨rfl, ⟨?_, ?_⟩, rfl, rfl⟩
  · norm_num [varI]
  · rw [entropyI_nil]; norm_num

/-- C3 counterexample: on the collection holding one signal of weight 0.05,
the returned max is the rounded 0.1, not the weight sum 0.05 the claim
requires. -/
theorem c3_counterexample :
    weightSum [tinyWeightSignal] = 1/20 ∧
    (EngineA.summarize [tinyWeightSignal]).max = 1/10 ∧
    ¬ ((1:ℚ)/10 = 1/20) := by
  refine ⟨?_, ?_, by norm_num⟩
  · norm_num [weightSum, tinyWeightSignal, signal]
  · have hw : weightSum [tinyWeightSignal] = 1/20 := by
      norm_num [weightSum, tinyWeightSignal, signal]
    simp only [EngineA.summarize]
    rw [hw]
    norm_num [toFixed1, round_eq]

/-- C3 (amended): for non-negative weights the returned Summary satisfies
0 ≤ score ≤ max in both summarize variants; the returned max is the weight
sum rounded to one decimal (equal to the exact sum whenever that sum is an
integer multiple of one tenth, as with every registry weight), and the
exact accumulators satisfy 0 ≤ score ≤ max = sum of all weights. -/
theorem c3_score_invariant (results : List SignalResult)
    (h : ∀ s ∈ results, 0 ≤ s.weight) :
    0 ≤ (EngineA.summarize results).score ∧
    (EngineA.summarize results).score ≤ (EngineA.summarize results).max ∧
    (EngineA.summarize results).score = toFixed1 (scoreSum results) ∧
    (EngineA.summarize results).max = toFixed1 (weightSum results) ∧
    (BotDetector.summarize results).score = (EngineA.summarize results).score ∧
    (BotDetector.summarize results).max = (EngineA.summarize results).max ∧
    0 ≤ scoreSum results ∧ scoreSum results ≤ weightSum results ∧
    weightSum results = (results.map (fun s => s.weight)).sum ∧
    (∀ k : ℤ, weightSum results = (k : ℚ)/10 →
      (EngineA.summarize results).max = weightSum results) := by
  have h0 : 0 ≤ scoreSum results := scoreSum_nonneg results h
  have h1 : scoreSum results ≤ weightSum results := scoreSum_le_weightSum results h
  refine ⟨?_, ?_, rfl, rfl, rfl, rfl, h0, h1, weightSum_eq_sum results, ?_⟩
  · have := toFixed1_monotone h0
    rwa [toFixed1_zero] at this
  · exact toFixed1_monotone h1
  · intro k hk
    show toFixed1 (weightSum results) = weightSum results
    rw [hk, toFixed1_tenth]

/-- C3 witness: the invariant instantiated on the ratio-boundary
collection (weights 7 and 3, both non-negative). -/
theorem c3_score_invariant_witness :
    (∀ s ∈ ratioBoundaryList, 0 ≤ s.weight) ∧
    0 ≤ (EngineA.summarize ratioBoundaryList).score ∧
    (EngineA.summarize ratioBoundaryList).score ≤ (EngineA.summarize ratioBoundaryList).max := by
  have hw : ∀ s ∈ ratioBoundaryList, 0 ≤ s.weight := by
    intro s hs
    simp only [ratioBoundaryList, List.mem_cons, List.not_mem_nil, or_false] at hs
    rcases hs with h | h
    · rw [h]; norm_num [sevenSignal, signal]
    · rw [h]; norm_num [threeSignal, signal]
  have h := c3_score_invariant ratioBoundaryList hw
  exact ⟨hw, h.1, h.2.1⟩

/-- C4 counterexample: on eight equal 10ms gaps the `botDetector.ts`
"too regular" flag is suspicious (8 intervals, variance 0), while the
entropy of the gap distribution is exactly 3, not below the fixed low
threshold 2 — so low variance alone suffices there, against the claim. -/
theorem c4_counterexample :
    BotDetector.veryRegular [10,10,10,10,10,10,10,10] = true ∧
    varI [10,10,10,10,10,10,10,10] < 5 ∧
    ¬ (entropyI [10,10,10,10,10,10,10,10] < 2) := by
  have hv : varI [10,10,10,10,10,10,10,10] = 0 := by norm_num [varI, meanI, sumI]
  refine ⟨?_, ?_, ?_⟩
  · simp [BotDetector.veryRegular, hv]
  · rw [hv]; norm_num
  · rw [entropyI_eight]; norm_num

/-- C4 (amended): the first-variant "too regular" signal is suspicious
exactly when variance is below 5 and entropy below 2, and neither low
variance alone (gaps 32,16,8,8: variance 128, entropy 1.75) nor low
entropy alone (eight equal gaps: variance 0, entropy 3) triggers it; the
`botDetector.ts` "too regular" signal is instead suspicious exactly when
at least 5 intervals exist and variance is below 5, with no entropy
condition. -/
theorem c4_regularity_conditions (ms moves clicks keys scrolls tinyMoves secs : ℕ)
    (l : List ℚ) :
    (((EngineA.probeSignals ms moves clicks keys scrolls tinyMoves l).get
       ⟨1, by norm_num [EngineA.probeSignals]⟩).suspicious ↔
      varI l < 5 ∧ entropyI l < 2) ∧
    (((BotDetector.probeSignals secs moves clicks keys scrolls l).get
       ⟨1, by norm_num [BotDetector.probeSignals]⟩).suspicious = true ↔
      5 ≤ l.length ∧ varI l < 5) ∧
    (entropyI [32,16,8,8] < 2 ∧ ¬ EngineA.tooRegular [32,16,8,8]) ∧
    (varI [10,10,10,10,10,10,10,10] < 5 ∧
      ¬ EngineA.tooRegular [10,10,10,10,10,10,10,10]) := by
  have hmix : varI [32,16,8,8] = 128 := by norm_num [varI, meanI, sumI]
  have height : varI [10,10,10,10,10,10,10,10] = 0 := by norm_num [varI, meanI, sumI]
  refine ⟨Iff.rfl, ?_, ⟨?_, ?_⟩, ⟨?_, ?_⟩⟩
  · show BotDetector.veryRegular l = true ↔ _
    simp [BotDetector.veryRegular]
  · rw [entropyI_mix]; norm_num
  · intro hreg
    rcases hreg with ⟨h5, _⟩
    rw [hmix] at h5
    norm_num at h5
  · rw [height]; norm_num
  · intro hreg
    rcases hreg with ⟨_, hent⟩
    rw [entropyI_eight] at hent
    norm_num at hent

/-- C5 counterexample: the `botDetector.ts` WebGL detector reports
suspicious = false when the WebGL sensor read fails (the caught failure
destructures to empty vendor and renderer strings, which hit nothing on
the blacklist), against the claim that a failed read always yields a
suspicious Signal. -/
theorem c5_counterexample :
    (BotDetector.detectWebGLBlacklist none).suspicious = false := by
  decide

/-- C5 (amended): every detector catches a failed sensor read internally
and still returns a Signal (the embedded detectors are total functions of
the snapshot); the first-variant canvas, WebGL, font, audio, tampering and
timezone detectors yield suspicious = true on a failed read, but the
`botDetector.ts` WebGL detector yields suspicious = false on a failed
WebGL read, and both chrome-app detectors yield suspicious = false when
the chrome capability is missing — so a missing capability does not
always produce a suspicious result. -/
theorem c5_failure_handling :
    (EngineA.detectCanvasFingerprint { sampleSnapshot with canvas := Except.error () }).suspicious = true ∧
    (EngineA.detectWebGLBlacklist { sampleSnapshot with webgl := none }).suspicious = true ∧
    (EngineA.detectFontEnumeration { sampleSnapshot with fontWidth := none }).suspicious = true ∧
    (EngineA.detectAudioContext { sampleSnapshot with audio := Except.error () }).suspicious = true ∧
    (EngineA.detectFunctionTampering { sampleSnapshot with fnTamper := none }).suspicious = true ∧
    (EngineA.detectTimezoneAvailable { sampleSnapshot with timezone := none }).suspicious = true ∧
    (BotDetector.detectWebGLBlacklist none).suspicious = false ∧
    (EngineA.detectChromeApp { sampleSnapshot with chromeAppInstalled := none }).suspicious = false ∧
    (BotDetector.detectChromeApp none).suspicious = false := by
  decide

/-- C6: the harness produces exactly one report per configured scenario in
the configured order, a throwing action step is caught and logged while
diagnostics extraction still proceeds, and the full ordered report
sequence is persisted in exactly one file write, performed after all
scenarios complete. -/
theorem c6_harness_reports (scs : List Harness.Scenario) :
    Harness.harnessResults scs = scs.map (fun sc => (Harness.runScenario sc).1) ∧
    (Harness.harnessResults scs).length = scs.length ∧
    (Harness.harnessResults scs).map (fun r => r.scenario) = scs.map (fun sc => sc.name) ∧
    Harness.harnessWrites scs =
      [(Harness.OUTFILE, { target := Harness.TARGET, results := Harness.harnessResults scs })] ∧
    (∀ sc ∈ scs, ∀ e, sc.actionRun = some (Except.error e) →
      (Harness.runScenario sc).1.result = Harness.grabDiagnostics sc.page ∧
      (Harness.runScenario sc).2 = ["[" ++ sc.name ++ "] action error " ++ e]) := by
  have hres : Harness.harnessResults scs = scs.map (fun sc => (Harness.runScenario sc).1) := by
    simpa [Harness.harnessResults] using
      foldl_append_map (fun sc => (Harness.runScenario sc).1) scs []
  refine ⟨hres, ?_, ?_, rfl, ?_⟩
  · rw [hres, List.length_map]
  · rw [hres, List.map_map]
    apply List.map_congr_left
    intro sc hsc
    rfl
  · intro sc hsc e he
    exact ⟨rfl, by simp [Harness.runScenario, he]⟩

/-- C6 witness: three configured scenarios with a throwing middle action:
three reports in order, the failing scenario logged and still carrying its
diagnostics, one file write. -/
theorem c6_harness_reports_witness :
    wScenarioThrow ∈ wScenarios ∧
    wScenarioThrow.actionRun = some (Except.error "boom") ∧
    (Harness.harnessResults wScenarios).length = 3 ∧
    (Harness.harnessResults wScenarios).map (fun r => r.scenario) =
      ["human-headful-baseline", "headless-perfect-regular-motion", "headless-default-noinput"] ∧
    (Harness.runScenario wScenarioThrow).1.result = Harness.grabDiagnostics wScenarioThrow.page ∧
    (Harness.runScenario wScenarioThrow).2 =
      ["[headless-perfect-regular-motion] action error boom"] ∧
    (Harness.harnessWrites wScenarios).length = 1 := by
  have h := c6_harness_reports wScenarios
  have hmem : wScenarioThrow ∈ wScenarios := by simp [wScenarios]
  have hact : wScenarioThrow.actionRun = some (Except.error "boom") := rfl
  have hthrow := h.2.2.2.2 wScenarioThrow hmem "boom" hact
  refine ⟨hmem, hact, ?_, ?_, hthrow.1, ?_, rfl⟩
  · rw [h.2.1]; rfl
  · rw [h.2.2.1]; rfl
  · rw [hthrow.2]; rfl

/-- C7: the first-variant "impossible speed" flag (the suspicious value of
the third probe signal) holds exactly when some recorded gap is below 8ms,
whatever the other gaps are. -/
theorem c7_impossible_speed (ms moves clicks keys scrolls tinyMoves : ℕ)
    (intervals : List ℚ) :
    ((EngineA.probeSignals ms moves clicks keys scrolls tinyMoves intervals).get
      ⟨2, by norm_num [EngineA.probeSignals]⟩).suspicious ↔
    ∃ i ∈ intervals, i < 8 := by
  show (EngineA.impossibleSpeed intervals = true) ↔ _
  simp [EngineA.impossibleSpeed, List.any_eq_true]

/-- C8: at window close the first-variant probe computes the sample mean
(sum over n), the Bessel-corrected variance (squared deviations over n-1)
and the Shannon entropy over the normalized gaps with zero probabilities
contributing zero, matching the formulas modelled from the spec. -/
theorem c8_probe_statistics (l : List ℚ) :
    (0 < l.length → meanI l = specSampleMean l) ∧
    (1 < l.length → varI l = specBesselVariance l) ∧
    (sumI l ≠ 0 → entropyI l = specShannonEntropy l) :=
  ⟨meanI_spec l, varI_spec l, entropyI_spec l⟩

/-- C8 witness: the statistics agreement instantiated on the two-gap
sequence 8, 8. -/
theorem c8_probe_statistics_witness :
    0 < ([8, 8] : List ℚ).length ∧ 1 < ([8, 8] : List ℚ).length ∧
    sumI [8, 8] ≠ 0 ∧
    meanI [8, 8] = specSampleMean [8, 8] ∧
    varI [8, 8] = specBesselVariance [8, 8] ∧
    entropyI [8, 8] = specShannonEntropy [8, 8] := by
  have hs : sumI ([8, 8] : List ℚ) = 16 := by norm_num [sumI]
  refine ⟨by norm_num, by norm_num, by rw [hs]; norm_num, ?_, ?_, ?_⟩
  · exact (c8_probe_statistics [8, 8]).1 (by norm_num)
  · exact (c8_probe_statistics [8, 8]).2.1 (by norm_num)
  · exact (c8_probe_statistics [8, 8]).2.2 (by rw [hs]; norm_num)

/-- C9: the first-variant static pass is a pure function of the sensor
snapshot (identical snapshots yield identical Signal collections), always
returns the 19 detector results in the same fixed order — the id sequence
is the fixed list, with only the canvas id depending on context
availability — and the returned ids are pairwise distinct. -/
theorem c9_static_determinism (s t : SensorSnapshot) (h : s = t) :
    EngineA.runStaticDetections s = EngineA.runStaticDetections t ∧
    (EngineA.runStaticDetections s).map (fun r => r.id) = staticIdList s ∧
    ((EngineA.runStaticDetections s).map (fun r => r.id)).Nodup ∧
    (EngineA.runStaticDetections s).length = 19 := by
  subst h
  refine ⟨rfl, runStatic_map_id s, ?_, rfl⟩
  rw [runStatic_map_id s]
  exact staticIdList_nodup s

/-- C9 witness: the static pass on the concrete sample snapshot. -/
theorem c9_static_determinism_witness :
    sampleSnapshot = sampleSnapshot ∧
    (EngineA.runStaticDetections sampleSnapshot).map (fun r => r.id) =
      staticIdList sampleSnapshot ∧
    ((EngineA.runStaticDetections sampleSnapshot).map (fun r => r.id)).Nodup ∧
    (EngineA.runStaticDetections sampleSnapshot).length = 19 := by
  have h := c9_static_determinism sampleSnapshot sampleSnapshot rfl
  exact ⟨rfl, h.2.1, h.2.2.1, h.2.2.2⟩

/-- C10: the synchronous behavioral detectors register their listener and
return within the same synchronous call — with the run-to-completion
guarantee (no event dispatched between registration and return) each
returns suspicious = false — and the recorded listener operations add
exactly one listener and never remove one. -/
theorem c10_sync_behavioral (f1 f2 f3 : List String)
    (h1 : f1 = []) (h2 : f2 = []) (h3 : f3 = []) :
    ((BotDetector.detectFocusBlurPatterns f1).1.suspicious = false ∧
      (BotDetector.detectFocusBlurPatterns f1).2 = [ListenerOp.add "blur"] ∧
      ∀ ev, ListenerOp.remove ev ∉ (BotDetector.detectFocusBlurPatterns f1).2) ∧
    ((BotDetector.detectResizeEvents f2).1.suspicious = false ∧
      (BotDetector.detectResizeEvents f2).2 = [ListenerOp.add "resize"] ∧
      ∀ ev, ListenerOp.remove ev ∉ (BotDetector.detectResizeEvents f2).2) ∧
    ((BotDetector.detectTouchGestures f3).1.suspicious = false ∧
      (BotDetector.detectTouchGestures f3).2 = [ListenerOp.add "gesturestart"] ∧
      ∀ ev, ListenerOp.remove ev ∉ (BotDetector.detectTouchGestures f3).2) := by
  subst h1
  subst h2
  subst h3
  refine ⟨⟨rfl, rfl, ?_⟩, ⟨rfl, rfl, ?_⟩, ⟨rfl, rfl, ?_⟩⟩ <;> intro ev <;>
    simp [BotDetector.detectFocusBlurPatterns, BotDetector.detectResizeEvents,
      BotDetector.detectTouchGestures]

/-- C10 witness: the three synchronous detectors with no interleaved
dispatch. -/
theorem c10_sync_behavioral_witness :
    ([] : List String) = [] ∧
    (BotDetector.detectFocusBlurPatterns []).1.suspicious = false ∧
    (BotDetector.detectResizeEvents []).1.suspicious = false ∧
    (BotDetector.detectTouchGestures []).1.suspicious = false := by
  have h := c10_sync_behavioral [] [] [] rfl rfl rfl
  exact ⟨rfl, h.1.1, h.2.1.1, h.2.2.1⟩
